import Mathlib

/-!
Verification of the invitation-and-signup-matching workflow of the *itou*
("Plateforme de l'inclusion") repository.

The parts under `src/itou/www/invitations_views/forms.py` are embedded directly
from the source. The magic-link matcher (`SelectSiaeForm`), the magic-link
token mechanism, the signup finalizer and the `User` email-uniqueness check are
code of the repository that is not included under `src/` (only their tests
are); those are modelled from the specification, as marked on each definition.
-/

namespace Itou

/-! ## Data model -/

/-- A user account.  The role flags mirror `User.is_job_seeker`,
`User.is_prescriber`, `User.is_siae_staff`, `User.is_labor_inspector`:
mutually exclusive role tags on a single account table. -/
structure User where
  id : Nat
  email : String
  is_job_seeker : Bool := false
  is_prescriber : Bool := false
  is_siae_staff : Bool := false
  is_labor_inspector : Bool := false
  deriving Repr, DecidableEq

/-- An SIAE employer structure: kind enum (modelled as its string code),
SIRET registration number, authentication email, active flag. -/
structure Siae where
  id : Nat
  kind : String
  siret : String
  auth_email : String
  is_active : Bool := true
  deriving Repr, DecidableEq

/-- A membership row linking a user to one SIAE, with an admin flag. -/
structure Membership where
  user_id : Nat
  siae_id : Nat
  is_admin : Bool
  deriving Repr, DecidableEq

/-- An outbound notification email: recipient list and a subject tag. -/
structure Email where
  recipients : List String
  subject : String
  deriving Repr, DecidableEq

/-- The relational store visible to the signup workflow. -/
structure Db where
  siaes : List Siae
  users : List User
  memberships : List Membership
  outbox : List Email
  deriving Repr, DecidableEq

/-- Number of members of the SIAE identified by `sid` (the
`siae.members.count()` of the source). -/
def memberCount (db : Db) (sid : Nat) : Nat :=
  (db.memberships.filter (fun m => m.siae_id = sid)).length

/-! ## Magic-Link Matcher (`SelectSiaeForm`) -/

/-- The error kinds of the matcher. -/
inductive MatchError where
  | missingIdentifyingField
  | ambiguousMatch
  | notFound
  deriving Repr, DecidableEq

/-- Modelled from the spec: the user-facing messages of `SelectSiaeForm`
(`src/itou/www/signup/forms.py` is not under `src/`); the wording is the one
asserted by `SiaeSignupTest.test_select_siae_form_errors`. -/
def matchErrorMessage : MatchError → String
  | .missingIdentifyingField =>
      "Merci de renseigner un e-mail ou un numéro de SIRET connu de nos services."
  | .ambiguousMatch => "Votre e-mail est partagé par plusieurs structures"
  | .notFound => "Votre numéro de SIRET ou votre e-mail nous sont inconnus."

/-- SIAEs whose (siret, kind) pair equals the given one. -/
def siretMatches (siaes : List Siae) (siret kind : String) : List Siae :=
  siaes.filter (fun s => s.siret = siret ∧ s.kind = kind)

/-- SIAEs whose (auth_email, kind) pair equals the given one. -/
def emailMatches (siaes : List Siae) (email kind : String) : List Siae :=
  siaes.filter (fun s => s.auth_email = email ∧ s.kind = kind)

/-- Modelled from the spec: the resolution order of the Magic-Link Matcher
(`SelectSiaeForm.clean`, not under `src/`).  At least one of email and
registration number must be present; a unique (registration-number, kind)
match wins over any email match; else a unique (email, kind) match is
selected; else more than one email match is ambiguous; else nothing matched. -/
def selectSiae (siaes : List Siae) (email siret : Option String) (kind : String) :
    Except MatchError Siae :=
  if email.isNone ∧ siret.isNone then
    .error .missingIdentifyingField
  else
    match (match siret with
           | some s => siretMatches siaes s kind
           | none => []) with
    | [org] => .ok org
    | _ =>
      match (match email with
             | some e => emailMatches siaes e kind
             | none => []) with
      | [org] => .ok org
      | [] => .error .notFound
      | _ => .error .ambiguousMatch

/-! ## Magic link (signup:siae) -/

/-- A signed magic link: it encodes the target SIAE id and a snapshot of the
member count at generation time (not a nonce). -/
structure MagicLink where
  siae_id : Nat
  token_count : Nat
  deriving Repr, DecidableEq

/-- Modelled from the spec: `Siae.signup_magic_link` (the `Siae` model is not
under `src/`) — the signed link encodes the SIAE id and the member count at
generation. -/
def signupMagicLink (db : Db) (s : Siae) : MagicLink :=
  ⟨s.id, memberCount db s.id⟩

/-- An HTTP response of the signup views: status, optional redirect target,
optional user-facing message. -/
structure HttpResponse where
  status : Nat
  redirect_to : Option String
  message : Option String
  deriving Repr, DecidableEq

/-- The "invalid or expired link" message asserted by the tests. -/
def expiredLinkMessage : String :=
  "Ce lien d\x27inscription est invalide ou a expiré. Veuillez procéder à une nouvelle inscription."

/-- Modelled from the spec: opening a magic link (the `signup:siae` view is
not under `src/`).  The token is valid iff the organization's current member
count equals the count encoded at generation; a valid link renders the signup
form (200), an invalid one redirects (302) to the selection step with the
"invalid or expired" message.  Opening never mutates the store. -/
def openMagicLink (db : Db) (l : MagicLink) : Db × HttpResponse :=
  if memberCount db l.siae_id = l.token_count then
    (db, ⟨200, none, none⟩)
  else
    (db, ⟨302, some "signup:select_siae", some expiredLinkMessage⟩)

/-! ## Signup Finalizer -/

/-- Email address of the user with the given id (empty if absent). -/
def userEmail (db : Db) (uid : Nat) : String :=
  match db.users.find? (fun u => u.id = uid) with
  | some u => u.email
  | none => ""

/-- Emails of the admin members of the SIAE identified by `sid`. -/
def adminEmails (db : Db) (sid : Nat) : List String :=
  (db.memberships.filter (fun m => m.siae_id = sid ∧ m.is_admin = true)).map
    (fun m => userEmail db m.user_id)

/-- Modelled from the spec: the Signup Finalizer for magic-link signup (the
`signup:siae` POST view is not under `src/`).  It creates the employer-staff
user, attaches exactly one membership to the organization determined by the
link — admin iff the organization had zero prior members — and sends one
admin-notification email when prior members existed, none otherwise. -/
def finalizeSiaeSignup (db : Db) (sid uid : Nat) (email : String) : Db :=
  let prior := memberCount db sid
  let newUser : User := ⟨uid, email, false, false, true, false⟩
  let newMembership : Membership := ⟨uid, sid, decide (prior = 0)⟩
  let notifications : List Email :=
    if prior = 0 then []
    else [⟨adminEmails db sid, "Un nouvel utilisateur vient de rejoindre votre structure"⟩]
  ⟨db.siaes, db.users ++ [newUser], db.memberships ++ [newMembership],
   db.outbox ++ notifications⟩

/-! ## Invitation forms (`src/itou/www/invitations_views/forms.py`) -/

/-- Lower-cased character content of a string. -/
def lowercased (s : String) : List Char :=
  s.data.map Char.toLower

/-- Django's `email__iexact` lookup: case-insensitive email equality. -/
def emailsIexact (a b : String) : Bool :=
  lowercased a == lowercased b

/-- `User.objects.filter(email__iexact=email).first()`. -/
def findUserByEmailIexact (users : List User) (email : String) : Option User :=
  users.find? (fun u => emailsIexact u.email email)

/-- `PrescriberWithOrgInvitationForm._invited_user_exists_error`: if the guest
is already a user, they must be a prescriber and must not already be an active
member of the organization (`activeMemberEmails` are the emails of
`organization.active_members`). -/
def prescriberInvitedUserExistsError (users : List User)
    (activeMemberEmails : List String) (email : String) : Option String :=
  match findUserByEmailIexact users email with
  | none => none
  | some u =>
    if u.is_prescriber = false then
      some "Cet utilisateur n\x27est pas un prescripteur."
    else if activeMemberEmails.contains u.email then
      some "Cette personne fait déjà partie de votre organisation."
    else none

/-- `SiaeStaffInvitationForm._invited_user_exists_error`: an employer can only
invite another employer who is not already an active member of the SIAE. -/
def siaeStaffInvitedUserExistsError (users : List User)
    (activeMemberEmails : List String) (email : String) : Option String :=
  match findUserByEmailIexact users email with
  | none => none
  | some u =>
    if u.is_siae_staff = false then
      some "Cet utilisateur n\x27est pas un employeur."
    else if activeMemberEmails.contains u.email then
      some "Cette personne fait déjà partie de votre structure."
    else none

/-- `LaborInspectorInvitationForm._invited_user_exists_error`: a labor
inspector can only invite another labor inspector who is not already an
active member of the institution. -/
def laborInspectorInvitedUserExistsError (users : List User)
    (activeMemberEmails : List String) (email : String) : Option String :=
  match findUserByEmailIexact users email with
  | none => none
  | some u =>
    if u.is_labor_inspector = false then
      some "Cet utilisateur n\x27est pas un inspecteur du travail."
    else if activeMemberEmails.contains u.email then
      some "Cette personne fait déjà partie de votre structure."
    else none

/-- The Pôle emploi address error of
`PrescriberWithOrgInvitationForm.clean_email`. -/
def peEmailSuffixErrorMessage : String :=
  "L\x27adresse e-mail doit être une adresse Pôle emploi"

/-- The suffix condition of `PrescriberWithOrgInvitationForm.clean_email`:
an error is added when the organization kind is `PE` and the email does not
end with `settings.POLE_EMPLOI_EMAIL_SUFFIX` (passed here as `suffix`). -/
def peEmailSuffixError (kind suffix email : String) : Option String :=
  if kind = "PE" ∧ email.endsWith suffix = false then
    some peEmailSuffixErrorMessage
  else none

/-- `PrescriberWithOrgInvitationForm.clean_email`: the existing-user check
followed by the Pôle emploi suffix check; both may add an error on the email
field. -/
def prescriberCleanEmailErrors (users : List User)
    (activeMemberEmails : List String) (kind suffix email : String) :
    List String :=
  (prescriberInvitedUserExistsError users activeMemberEmails email).toList ++
    (peEmailSuffixError kind suffix email).toList

/-- The pending invitation handed to `NewUserInvitationForm`: one of the
three invitation kinds, carrying its target structure. -/
inductive InvitationRecord where
  | prescriberWithOrg (organization_id : Nat)
  | siaeStaff (siae : Siae)
  | laborInspector (institution_id : Nat)
  deriving Repr, DecidableEq

/-- The inactive-structure message of `NewUserInvitationForm.clean`. -/
def organizationInactiveMessage : String :=
  "La structure que vous souhaitez rejoindre n\x27est plus active."

/-- `NewUserInvitationForm.clean`: raises iff the invitation is an
`SiaeStaffInvitation` whose SIAE is not active. -/
def newUserInvitationCleanError : InvitationRecord → Option String
  | .siaeStaff s => if s.is_active = false then some organizationInactiveMessage else none
  | _ => none

/-! ## Invitation formsets -/

/-- The message of `BaseInvitationFormSet.clean`. -/
def duplicateEmailsMessage : String :=
  "Les invitations doivent avoir des adresses e-mail différentes."

/-- The loop of `BaseInvitationFormSet.clean`: walk the forms\x27 cleaned
emails, raising as soon as one repeats an earlier one (`emails` accumulates,
`None` included, exactly as `form.cleaned_data.get("email")` does). -/
def duplicateEmailsScan (seen : List (Option String)) :
    List (Option String) → Option String
  | [] => none
  | e :: rest =>
    if seen.contains e then some duplicateEmailsMessage
    else duplicateEmailsScan (seen ++ [e]) rest

/-- `BaseInvitationFormSet.clean`: skipped when any form has errors, else the
duplicate scan over the cleaned emails. -/
def invitationFormSetClean (formsErrors : List (List String))
    (cleanedEmails : List (Option String)) : Option String :=
  if formsErrors.any (fun es => es ≠ []) then none
  else duplicateEmailsScan [] cleanedEmails

/-- The data bound to one invitation form ("" is an empty field). -/
structure InvitationFormData where
  first_name : String
  last_name : String
  email : String
  deriving Repr, DecidableEq

/-- A bound form has not changed iff all its fields are empty. -/
def formIsEmpty (f : InvitationFormData) : Bool :=
  f.first_name = "" ∧ f.last_name = "" ∧ f.email = ""

/-- Django required-field message. -/
def requiredFieldMessage : String := "Ce champ est obligatoire."

/-- Errors of one bound invitation form: an empty form with
`empty_permitted` is valid; otherwise the three fields are required and the
email runs the form\x27s email validation (`emailValidator`). -/
def invitationFormErrors (emailValidator : String → List String)
    (empty_permitted : Bool) (f : InvitationFormData) : List String :=
  if empty_permitted ∧ formIsEmpty f then []
  else
    (if f.first_name = "" then [requiredFieldMessage] else []) ++
    (if f.last_name = "" then [requiredFieldMessage] else []) ++
    (if f.email = "" then [requiredFieldMessage] else emailValidator f.email)

/-- `form.cleaned_data.get("email")`: `None` for an untouched empty-permitted
form or a missing email, the submitted email otherwise. -/
def formCleanedEmail (empty_permitted : Bool) (f : InvitationFormData) :
    Option String :=
  if empty_permitted ∧ formIsEmpty f then none
  else if f.email = "" then none
  else some f.email

/-- Per-form error lists of a bound formset: the three repository formset
subclasses set `self.forms[0].empty_permitted = False`, the remaining forms
keep Django\x27s default (`True` for extra forms). -/
def formSetFormsErrors (emailValidator : String → List String) :
    List InvitationFormData → List (List String)
  | [] => []
  | f0 :: rest =>
    invitationFormErrors emailValidator false f0 ::
      rest.map (invitationFormErrors emailValidator true)

/-- Cleaned emails of a bound formset, first form not empty-permitted. -/
def formSetCleanedEmails : List InvitationFormData → List (Option String)
  | [] => []
  | f0 :: rest => formCleanedEmail false f0 :: rest.map (formCleanedEmail true)

/-- Django\x27s `DEFAULT_MAX_NUM` for formsets. -/
def DEFAULT_MAX_NUM : Nat := 1000

/-- Django\x27s `absolute_max = max_num + DEFAULT_MAX_NUM` (the three
repository formset factories pass `max_num=30` and leave `validate_max` at
its default `False`, so `max_num` itself is never checked against bound
data; only this hard cap is). -/
def absoluteMax (max_num : Nat) : Nat := max_num + DEFAULT_MAX_NUM

/-- Validity of a bound invitation formset (`formset.is_valid()`), for the
factory configuration shared by the three repository formsets
(`extra=1, max_num=30`, `validate_max` left `False`): the bound form count is
within `absolute_max`, every form is valid, and the duplicate-email clean
passes.  An empty bound formset is never valid (the subclasses\x27
`__init__` requires a first form). -/
def invitationFormSetIsValid (emailValidator : String → List String)
    (forms : List InvitationFormData) : Bool :=
  match forms with
  | [] => false
  | _ =>
    forms.length ≤ absoluteMax 30 ∧
    (formSetFormsErrors emailValidator forms).all (fun es => es = []) ∧
    invitationFormSetClean (formSetFormsErrors emailValidator forms)
        (formSetCleanedEmails forms) = none

/-- Invitations persisted by submitting a formset: one per non-empty form
when the formset is valid, none otherwise. -/
def submitInvitationFormSet (emailValidator : String → List String)
    (forms : List InvitationFormData) : List InvitationFormData :=
  if invitationFormSetIsValid emailValidator forms then
    forms.filter (fun f => formIsEmpty f = false)
  else []

/-- `SiaeStaffInvitationFormSet` validity against a user table and the
SIAE\x27s active-member emails. -/
def siaeStaffInvitationFormSetIsValid (users : List User)
    (activeMemberEmails : List String) (forms : List InvitationFormData) :
    Bool :=
  invitationFormSetIsValid
    (fun e => (siaeStaffInvitedUserExistsError users activeMemberEmails e).toList)
    forms

/-- `PrescriberWithOrgInvitationFormSet` validity. -/
def prescriberInvitationFormSetIsValid (users : List User)
    (activeMemberEmails : List String) (kind suffix : String)
    (forms : List InvitationFormData) : Bool :=
  invitationFormSetIsValid
    (prescriberCleanEmailErrors users activeMemberEmails kind suffix) forms

/-- `LaborInspectorInvitationFormSet` validity. -/
def laborInspectorInvitationFormSetIsValid (users : List User)
    (activeMemberEmails : List String) (forms : List InvitationFormData) :
    Bool :=
  invitationFormSetIsValid
    (fun e => (laborInspectorInvitedUserExistsError users activeMemberEmails e).toList)
    forms

/-! ## Signup email uniqueness -/

/-- The duplicate-account message asserted by
`UserEmailUniquenessTest.test_user_email_uniqueness`. -/
def emailUniquenessMessage : String :=
  "Un autre utilisateur utilise déjà cette adresse e-mail."

/-- Modelled from the spec: the user-email uniqueness check at signup (the
`User` model and allauth signup form are not under `src/`); per the test
suite it compares emails case-insensitively and rejects a duplicate without
creating an account.  The created account here is a job seeker, as in the
test. -/
def signupWithEmail (users : List User) (uid : Nat) (email : String) :
    Except String (List User) :=
  if users.any (fun u => emailsIexact u.email email) then
    .error emailUniquenessMessage
  else
    .ok (users ++ [⟨uid, email, true, false, false, false⟩])

/-! ## Claim theorems -/

/-- C1: if (registration number, kind) matches exactly one organization, the
matcher selects that organization, whatever (and however many) organizations
the (email, kind) pair matches. -/
theorem matcher_siret_priority (siaes : List Siae) (email : Option String)
    (siret kind : String) (org : Siae)
    (h : siretMatches siaes siret kind = [org]) :
    selectSiae siaes email (some siret) kind = .ok org := by
  simp only [selectSiae, h]
  simp

/-- Witness for C1: the scenario of the test story of David — two SIAEs share
the queried email, a third one matches the SIRET; the third is selected. -/
theorem matcher_siret_priority_witness :
    siretMatches
        [⟨1, "ACI", "11111111111111", "david.doe@siae.com", true⟩,
         ⟨2, "ACI", "22222222222222", "david.doe@siae.com", true⟩,
         ⟨3, "ACI", "12345678901234", "other@siae.com", true⟩]
        "12345678901234" "ACI" = [⟨3, "ACI", "12345678901234", "other@siae.com", true⟩] ∧
    selectSiae
        [⟨1, "ACI", "11111111111111", "david.doe@siae.com", true⟩,
         ⟨2, "ACI", "22222222222222", "david.doe@siae.com", true⟩,
         ⟨3, "ACI", "12345678901234", "other@siae.com", true⟩]
        (some "david.doe@siae.com") (some "12345678901234") "ACI" =
      .ok ⟨3, "ACI", "12345678901234", "other@siae.com", true⟩ := by
  refine ⟨by decide, matcher_siret_priority _ _ _ _ _ (by decide)⟩

/-- C4: when (email, kind) matches two or more organizations and
(registration number, kind) matches none, resolution fails with
`AmbiguousMatch`, surfaced as "your email is shared by multiple structures",
and no organization is selected (the result is an error, not an `ok`). -/
theorem matcher_ambiguous_email (siaes : List Siae) (e siret kind : String)
    (hs : siretMatches siaes siret kind = [])
    (he : 2 ≤ (emailMatches siaes e kind).length) :
    selectSiae siaes (some e) (some siret) kind = .error .ambiguousMatch ∧
    matchErrorMessage .ambiguousMatch =
      "Votre e-mail est partagé par plusieurs structures" ∧
    ∀ org : Siae, selectSiae siaes (some e) (some siret) kind ≠ .ok org := by
  have hres : selectSiae siaes (some e) (some siret) kind = .error .ambiguousMatch := by
    simp only [selectSiae, hs]
    cases hm : emailMatches siaes e kind with
    | nil => rw [hm] at he; simp at he
    | cons a t =>
      cases t with
      | nil => rw [hm] at he; simp at he
      | cons b t' => simp
  refine ⟨hres, rfl, fun org hok => ?_⟩
  rw [hres] at hok
  exact Except.noConfusion hok

/-- Witness for C4: the scenario of `test_select_siae_form_errors` — two ACI
SIAEs share the queried email, the queried SIRET matches nothing. -/
theorem matcher_ambiguous_email_witness :
    selectSiae
        [⟨1, "ACI", "11111111111111", "emilie.doe@siae.com", true⟩,
         ⟨2, "ACI", "22222222222222", "emilie.doe@siae.com", true⟩]
        (some "emilie.doe@siae.com") (some "12345678901234") "ACI" =
      .error .ambiguousMatch := by
  exact (matcher_ambiguous_email _ _ _ _ (by decide) (by decide)).1

/-- C2: opening a magic link never mutates the store; it yields the signup
form (200) iff the organization's member count equals the count at
generation; reopening with no intervening change gives the identical
response; and once the count differs from the snapshot the open is a 302
redirect to the selection step carrying the "invalid or expired" message. -/
theorem magic_link_snapshot_validity (db : Db) (l : MagicLink) :
    (openMagicLink db l).1 = db ∧
    ((openMagicLink db l).2.status = 200 ↔ memberCount db l.siae_id = l.token_count) ∧
    openMagicLink (openMagicLink db l).1 l = openMagicLink db l ∧
    ((openMagicLink db l).2 =
        ⟨302, some "signup:select_siae", some expiredLinkMessage⟩ ↔
      memberCount db l.siae_id ≠ l.token_count) := by
  unfold openMagicLink
  by_cases h : memberCount db l.siae_id = l.token_count <;>
    simp [h]

/-- C3: finalizing an employer-staff signup via magic link appends exactly one
membership, attached to the link's organization — admin iff the organization
had zero prior members; every other organization's membership rows and all
organization records are unchanged; and exactly one admin-notification email
is sent when prior members existed, zero when none existed. -/
theorem finalize_signup_membership_and_emails (db : Db) (sid uid : Nat)
    (email : String) :
    (finalizeSiaeSignup db sid uid email).memberships =
      db.memberships ++ [⟨uid, sid, decide (memberCount db sid = 0)⟩] ∧
    memberCount (finalizeSiaeSignup db sid uid email) sid = memberCount db sid + 1 ∧
    ((finalizeSiaeSignup db sid uid email).memberships.filter
        (fun m => m.siae_id ≠ sid)) =
      db.memberships.filter (fun m => m.siae_id ≠ sid) ∧
    (finalizeSiaeSignup db sid uid email).siaes = db.siaes ∧
    (finalizeSiaeSignup db sid uid email).users =
      db.users ++ [⟨uid, email, false, false, true, false⟩] ∧
    (finalizeSiaeSignup db sid uid email).outbox.length =
      db.outbox.length + (if memberCount db sid = 0 then 0 else 1) := by
  refine ⟨rfl, ?_, ?_, rfl, rfl, ?_⟩
  · simp [memberCount, finalizeSiaeSignup, List.filter_append]
  · simp [finalizeSiaeSignup, List.filter_append]
  · by_cases h : memberCount db sid = 0 <;>
      simp [finalizeSiaeSignup, h]

theorem duplicateEmailsScan_none_or_dup (l : List (Option String)) : ∀ seen,
    duplicateEmailsScan seen l = none ∨
    duplicateEmailsScan seen l = some duplicateEmailsMessage := by
  induction l with
  | nil => intro seen; left; rfl
  | cons a t ih =>
    intro seen
    unfold duplicateEmailsScan
    by_cases h : seen.contains a = true
    · rw [if_pos h]; right; rfl
    · rw [if_neg h]; exact ih (seen ++ [a])

theorem duplicateEmailsScan_eq_none_iff (l : List (Option String)) : ∀ seen,
    duplicateEmailsScan seen l = none ↔ l.Nodup ∧ ∀ e ∈ l, e ∉ seen := by
  induction l with
  | nil => intro seen; simp [duplicateEmailsScan]
  | cons a t ih =>
    intro seen
    unfold duplicateEmailsScan
    by_cases h : seen.contains a = true
    · rw [if_pos h]
      constructor
      · intro hc; exact absurd hc (by simp)
      · rintro ⟨-, hall⟩
        exact absurd (by simpa using h) (hall a (by simp))
    · rw [if_neg h]
      rw [ih (seen ++ [a])]
      constructor
      · rintro ⟨hnd, hall⟩
        refine ⟨List.nodup_cons.mpr
          ⟨fun hmem => absurd (hall a hmem) (by simp), hnd⟩, fun e he => ?_⟩
        rcases List.mem_cons.mp he with he | he
        · subst he
          intro hmem
          exact h (by simpa using hmem)
        · have := hall e he
          simp only [List.mem_append, List.mem_singleton, not_or] at this
          exact this.1
      · rintro ⟨hnd, hall⟩
        rcases List.nodup_cons.mp hnd with ⟨hna, hndt⟩
        refine ⟨hndt, fun e he => ?_⟩
        simp only [List.mem_append, List.mem_singleton, not_or]
        refine ⟨hall e (List.mem_cons_of_mem a he), fun hrfl => ?_⟩
        subst hrfl
        exact hna he

theorem formset_valid_props (v : String → List String)
    (forms : List InvitationFormData)
    (h : invitationFormSetIsValid v forms = true) :
    forms ≠ [] ∧ forms.length ≤ absoluteMax 30 ∧
    (formSetFormsErrors v forms).all (fun es => es = []) = true ∧
    invitationFormSetClean (formSetFormsErrors v forms)
      (formSetCleanedEmails forms) = none := by
  cases forms with
  | nil => simp [invitationFormSetIsValid] at h
  | cons f0 rest =>
    unfold invitationFormSetIsValid at h
    simp only [decide_eq_true_eq] at h
    exact ⟨by simp, h.1, by simpa using h.2.1, h.2.2⟩

/-- C5: a submitted invitation batch whose cleaned emails repeat (two entries
with the same invited email) fails validation as a whole — with the
duplicate-emails error when no individual form has errors — and persists zero
invitations; a batch whose cleaned emails are pairwise distinct passes the
duplicate check of `BaseInvitationFormSet.clean`. -/
theorem invitation_batch_duplicate_emails (v : String → List String)
    (forms : List InvitationFormData) :
    (¬ (formSetCleanedEmails forms).Nodup →
       invitationFormSetIsValid v forms = false ∧
       submitInvitationFormSet v forms = [] ∧
       ((formSetFormsErrors v forms).all (fun es => es = []) = true →
         invitationFormSetClean (formSetFormsErrors v forms)
           (formSetCleanedEmails forms) = some duplicateEmailsMessage)) ∧
    ((formSetCleanedEmails forms).Nodup →
       duplicateEmailsScan [] (formSetCleanedEmails forms) = none) := by
  constructor
  · intro hdup
    have hscan : duplicateEmailsScan [] (formSetCleanedEmails forms) =
        some duplicateEmailsMessage := by
      rcases duplicateEmailsScan_none_or_dup (formSetCleanedEmails forms) [] with h0 | h0
      · exact absurd ((duplicateEmailsScan_eq_none_iff _ []).mp h0).1 hdup
      · exact h0
    have hclean : (formSetFormsErrors v forms).all (fun es => es = []) = true →
        invitationFormSetClean (formSetFormsErrors v forms)
          (formSetCleanedEmails forms) = some duplicateEmailsMessage := by
      intro hall
      unfold invitationFormSetClean
      rw [if_neg, hscan]
      simp only [List.any_eq_true, decide_eq_true_eq, not_exists, not_and,
        not_not]
      intro es hes
      have := List.all_eq_true.mp hall es hes
      simpa using this
    have hvalid : invitationFormSetIsValid v forms = false := by
      cases hval : invitationFormSetIsValid v forms with
      | false => rfl
      | true =>
        rcases formset_valid_props v forms hval with ⟨-, -, hall, hnone⟩
        rw [hclean hall] at hnone
        exact Option.noConfusion hnone
    refine ⟨hvalid, ?_, hclean⟩
    unfold submitInvitationFormSet
    rw [hvalid]
    simp
  · intro hnd
    exact (duplicateEmailsScan_eq_none_iff _ []).mpr ⟨hnd, by simp⟩

/-- Witness for C5: a two-entry batch repeating `jean@siae.com` is invalid and
persists nothing, while the same batch with distinct emails passes the
duplicate scan. -/
theorem invitation_batch_duplicate_emails_witness :
    (invitationFormSetIsValid (fun _ => [])
        [⟨"Jean", "Doe", "jean@siae.com"⟩, ⟨"Anne", "Doe", "jean@siae.com"⟩] = false ∧
     submitInvitationFormSet (fun _ => [])
        [⟨"Jean", "Doe", "jean@siae.com"⟩, ⟨"Anne", "Doe", "jean@siae.com"⟩] = []) ∧
    duplicateEmailsScan []
        (formSetCleanedEmails
          [⟨"Jean", "Doe", "jean@siae.com"⟩, ⟨"Anne", "Doe", "anne@siae.com"⟩]) =
      none := by
  constructor
  · have h := (invitation_batch_duplicate_emails (fun _ => [])
      [⟨"Jean", "Doe", "jean@siae.com"⟩, ⟨"Anne", "Doe", "jean@siae.com"⟩]).1
      (by decide)
    exact ⟨h.1, h.2.1⟩
  · exact (invitation_batch_duplicate_emails (fun _ => [])
      [⟨"Jean", "Doe", "jean@siae.com"⟩, ⟨"Anne", "Doe", "anne@siae.com"⟩]).2
      (by decide)

/-- C6: each of the three invitation forms adds an email error iff a user
account with that email exists (case-insensitive lookup) and either lacks the
role required by the target structure or is already an active member of it;
when no such user exists, no error is added. -/
theorem invited_user_exists_error_iff (users : List User)
    (members : List String) (e : String) :
    ((prescriberInvitedUserExistsError users members e).isSome = true ↔
      ∃ u, findUserByEmailIexact users e = some u ∧
        (u.is_prescriber = false ∨ members.contains u.email = true)) ∧
    ((siaeStaffInvitedUserExistsError users members e).isSome = true ↔
      ∃ u, findUserByEmailIexact users e = some u ∧
        (u.is_siae_staff = false ∨ members.contains u.email = true)) ∧
    ((laborInspectorInvitedUserExistsError users members e).isSome = true ↔
      ∃ u, findUserByEmailIexact users e = some u ∧
        (u.is_labor_inspector = false ∨ members.contains u.email = true)) ∧
    (findUserByEmailIexact users e = none →
      prescriberInvitedUserExistsError users members e = none ∧
      siaeStaffInvitedUserExistsError users members e = none ∧
      laborInspectorInvitedUserExistsError users members e = none) := by
  cases hf : findUserByEmailIexact users e with
  | none =>
    simp [prescriberInvitedUserExistsError, siaeStaffInvitedUserExistsError,
      laborInspectorInvitedUserExistsError, hf]
  | some u =>
    simp only [prescriberInvitedUserExistsError,
      siaeStaffInvitedUserExistsError, laborInspectorInvitedUserExistsError,
      hf]
    refine ⟨?_, ?_, ?_, fun h => Option.noConfusion h⟩
    · by_cases hr : u.is_prescriber = false
      · simp [hr]
      · by_cases hm : members.contains u.email = true <;> simp [hr, hm]
    · by_cases hr : u.is_siae_staff = false
      · simp [hr]
      · by_cases hm : members.contains u.email = true <;> simp [hr, hm]
    · by_cases hr : u.is_labor_inspector = false
      · simp [hr]
      · by_cases hm : members.contains u.email = true <;> simp [hr, hm]

/-- Witness for C6: with no registered user, none of the three forms adds an
error for a fresh email. -/
theorem invited_user_exists_error_iff_witness :
    prescriberInvitedUserExistsError [] [] "new@siae.com" = none ∧
    siaeStaffInvitedUserExistsError [] [] "new@siae.com" = none ∧
    laborInspectorInvitedUserExistsError [] [] "new@siae.com" = none :=
  (invited_user_exists_error_iff [] [] "new@siae.com").2.2.2 (by decide)

/-- C7: completing signup through an invitation fails with the
organization-inactive error iff the invitation is an SIAE staff invitation
whose structure is inactive; prescriber and labor-inspector invitations are
never subject to the check. -/
theorem new_user_invitation_inactive_siae (inv : InvitationRecord) :
    (newUserInvitationCleanError inv = some organizationInactiveMessage ↔
      ∃ s : Siae, inv = .siaeStaff s ∧ s.is_active = false) ∧
    (∀ oid : Nat, newUserInvitationCleanError (.prescriberWithOrg oid) = none) ∧
    (∀ iid : Nat, newUserInvitationCleanError (.laborInspector iid) = none) := by
  refine ⟨?_, fun _ => rfl, fun _ => rfl⟩
  cases inv with
  | prescriberWithOrg oid => simp [newUserInvitationCleanError]
  | laborInspector iid => simp [newUserInvitationCleanError]
  | siaeStaff s =>
    by_cases h : s.is_active = false <;>
      simp [newUserInvitationCleanError, h]

/-- C8: user-email uniqueness at signup is case-insensitive — a signup whose
email matches an existing account up to letter case is rejected with the
duplicate-account message and creates nothing, while an email with no
case-insensitive match creates the account; and the invitation-form lookup of
existing users is itself insensitive to the case of the queried email. -/
theorem signup_email_uniqueness_case_insensitive (users : List User)
    (uid : Nat) (e e2 : String) :
    ((∃ u ∈ users, emailsIexact u.email e = true) →
      signupWithEmail users uid e = .error emailUniquenessMessage) ∧
    ((∀ u ∈ users, emailsIexact u.email e = false) →
      signupWithEmail users uid e =
        .ok (users ++ [⟨uid, e, true, false, false, false⟩])) ∧
    (lowercased e = lowercased e2 →
      findUserByEmailIexact users e = findUserByEmailIexact users e2) := by
  refine ⟨?_, ?_, ?_⟩
  · rintro ⟨u, hu, hx⟩
    unfold signupWithEmail
    rw [if_pos (List.any_eq_true.mpr ⟨u, hu, hx⟩)]
  · intro hall
    unfold signupWithEmail
    rw [if_neg]
    simp only [List.any_eq_true, not_exists, not_and]
    intro u hu
    simp [hall u hu]
  · intro h
    unfold findUserByEmailIexact
    have hp : (fun u : User => emailsIexact u.email e) =
        (fun u : User => emailsIexact u.email e2) := by
      funext u
      unfold emailsIexact
      rw [h]
    rw [hp]

/-- Witness for C8: against the account `john.doe@siae.com`, a mixed-case
variant is rejected, a one-letter variant is accepted, and the form lookup
is identical for upper- and lower-case queries. -/
theorem signup_email_uniqueness_witness :
    signupWithEmail [⟨1, "john.doe@siae.com", true, false, false, false⟩] 2
        "JoHn.DoE@SiAe.cOm" = .error emailUniquenessMessage ∧
    signupWithEmail [⟨1, "john.doe@siae.com", true, false, false, false⟩] 2
        "XoHn.DoE@SiAe.cOm" =
      .ok [⟨1, "john.doe@siae.com", true, false, false, false⟩,
           ⟨2, "XoHn.DoE@SiAe.cOm", true, false, false, false⟩] ∧
    findUserByEmailIexact [⟨1, "john.doe@siae.com", true, false, false, false⟩]
        "JOHN.DOE@SIAE.com" =
      findUserByEmailIexact [⟨1, "john.doe@siae.com", true, false, false, false⟩]
        "john.doe@siae.com" := by
  refine ⟨(signup_email_uniqueness_case_insensitive _ 2 _ "").1
      ⟨⟨1, "john.doe@siae.com", true, false, false, false⟩, by simp, by decide⟩,
    (signup_email_uniqueness_case_insensitive _ 2 _ "").2.1 ?_,
    (signup_email_uniqueness_case_insensitive _ 2 _ _).2.2 (by decide)⟩
  intro u hu
  rw [List.mem_singleton] at hu
  subst hu
  decide

/-- C9: inviting to a Pôle emploi prescriber organization requires the
invited email to end with the configured Pôle emploi suffix — the suffix
error is raised exactly when the kind is `PE` and the email lacks the suffix,
it then appears among the email-field errors, and for any other kind
`clean_email` reduces to the existing-user check alone. -/
theorem pe_email_suffix_check (users : List User) (members : List String)
    (kind suffix e : String) :
    (peEmailSuffixError kind suffix e = some peEmailSuffixErrorMessage ↔
      kind = "PE" ∧ e.endsWith suffix = false) ∧
    (kind = "PE" → e.endsWith suffix = false →
      peEmailSuffixErrorMessage ∈
        prescriberCleanEmailErrors users members kind suffix e) ∧
    (kind ≠ "PE" →
      prescriberCleanEmailErrors users members kind suffix e =
        (prescriberInvitedUserExistsError users members e).toList) := by
  refine ⟨?_, ?_, ?_⟩
  · unfold peEmailSuffixError
    by_cases h : kind = "PE" ∧ e.endsWith suffix = false
    · rw [if_pos h]; simp [h]
    · rw [if_neg h]; simp [h]
  · intro h1 h2
    unfold prescriberCleanEmailErrors peEmailSuffixError
    rw [if_pos ⟨h1, h2⟩]
    simp
  · intro h
    unfold prescriberCleanEmailErrors peEmailSuffixError
    rw [if_neg (fun hc => h hc.1)]
    simp

/-- Witness for C9: a gmail address invited to a `PE` organization triggers
the suffix error, while the same address invited to a `ML` organization only
runs the existing-user check. -/
theorem pe_email_suffix_check_witness :
    peEmailSuffixError "PE" "@pole-emploi.fr" "john@gmail.com" =
      some peEmailSuffixErrorMessage ∧
    peEmailSuffixErrorMessage ∈
      prescriberCleanEmailErrors [] [] "PE" "@pole-emploi.fr" "john@gmail.com" ∧
    prescriberCleanEmailErrors [] [] "ML" "@pole-emploi.fr" "john@gmail.com" =
      (prescriberInvitedUserExistsError [] [] "john@gmail.com").toList := by
  refine ⟨(pe_email_suffix_check [] [] _ _ _).1.mpr ⟨rfl, by decide⟩,
    (pe_email_suffix_check [] [] _ _ _).2.1 rfl (by decide),
    (pe_email_suffix_check [] [] _ _ _).2.2 (by decide)⟩

theorem formset_valid_bounds (v : String → List String)
    (forms : List InvitationFormData)
    (h : invitationFormSetIsValid v forms = true) :
    1 ≤ (forms.filter (fun f => formIsEmpty f = false)).length ∧
    forms.length ≤ absoluteMax 30 := by
  rcases formset_valid_props v forms h with ⟨hne, hlen, hall, -⟩
  refine ⟨?_, hlen⟩
  cases forms with
  | nil => exact absurd rfl hne
  | cons f0 rest =>
    have h0 : invitationFormErrors v false f0 = [] := by
      have hmem : invitationFormErrors v false f0 ∈
          formSetFormsErrors v (f0 :: rest) := by
        simp [formSetFormsErrors]
      simpa using List.all_eq_true.mp hall _ hmem
    have hemail : ¬ f0.email = "" := by
      intro he
      unfold invitationFormErrors at h0
      rw [if_neg (by simp)] at h0
      simp [he] at h0
    have hne0 : formIsEmpty f0 = false := by
      simp [formIsEmpty, hemail]
    have hmem : f0 ∈ (f0 :: rest).filter (fun f => formIsEmpty f = false) :=
      List.mem_filter.mpr ⟨List.mem_cons_self _ _, by simp [hne0]⟩
    exact List.length_pos_of_mem hmem

/-- C10 (amended): a valid submitted batch of any of the three invitation
formsets contains at least one invitation — the first form is not permitted
to be empty — and at most `absolute_max = max_num + 1000 = 1030` bound forms;
`max_num = 30` itself is not enforced against submitted data because
`validate_max` is left at its default `False`. -/
theorem formset_batch_bounds_amended (users : List User)
    (members : List String) (kind suffix : String)
    (forms : List InvitationFormData) :
    (prescriberInvitationFormSetIsValid users members kind suffix forms = true →
      1 ≤ (forms.filter (fun f => formIsEmpty f = false)).length ∧
      forms.length ≤ absoluteMax 30) ∧
    (siaeStaffInvitationFormSetIsValid users members forms = true →
      1 ≤ (forms.filter (fun f => formIsEmpty f = false)).length ∧
      forms.length ≤ absoluteMax 30) ∧
    (laborInspectorInvitationFormSetIsValid users members forms = true →
      1 ≤ (forms.filter (fun f => formIsEmpty f = false)).length ∧
      forms.length ≤ absoluteMax 30) :=
  ⟨fun h => formset_valid_bounds _ forms h,
   fun h => formset_valid_bounds _ forms h,
   fun h => formset_valid_bounds _ forms h⟩

/-- Witness for C10 (amended): a one-form SIAE staff batch is valid, counts
one invitation and is within the hard cap. -/
theorem formset_batch_bounds_amended_witness :
    siaeStaffInvitationFormSetIsValid [] [] [⟨"Jean", "Doe", "jean@siae.com"⟩] = true ∧
    (1 ≤ (([⟨"Jean", "Doe", "jean@siae.com"⟩] :
        List InvitationFormData).filter (fun f => formIsEmpty f = false)).length ∧
      ([⟨"Jean", "Doe", "jean@siae.com"⟩] :
        List InvitationFormData).length ≤ absoluteMax 30) :=
  ⟨by decide,
   (formset_batch_bounds_amended [] [] "ML" "@pole-emploi.fr"
      [⟨"Jean", "Doe", "jean@siae.com"⟩]).2.1 (by decide)⟩

/-- A bound batch of 31 pairwise-distinct complete invitation forms. -/
def batchOf31 : List InvitationFormData :=
  (List.range 31).map (fun i => ⟨"J", "D", "i" ++ toString i ++ "@x.fr"⟩)

/-- Counterexample to C10 as stated: a submitted batch of 31 invitations —
one more than `max_num = 30` — passes validation of the SIAE staff invitation
formset, because `validate_max` is not enabled on any of the three formset
factories. -/
theorem formset_max_num_not_validated :
    batchOf31.length = 31 ∧ 30 < batchOf31.length ∧
    siaeStaffInvitationFormSetIsValid [] [] batchOf31 = true ∧
    (batchOf31.filter (fun f => formIsEmpty f = false)).length = 31 := by
  refine ⟨by decide, by decide, by decide, by decide⟩

end Itou
